import Mathlib

/-!
Verification development for `website_scanner.py` (Website Health Scanner).

The scanner fetches one page and runs pure string/regex checks over the
fetched text, then aggregates the named boolean results into a scored
report.  This file embeds the check modules, the aggregator and the
reporter ordering logic, and proves the frozen claims about them.

Modelling conventions:
* Python strings are `List Char` (abbreviated `Str`); `.lower()` is ASCII
  lowercasing (the source only matches ASCII patterns).
* Each regex scan of the source is translated as an explicit left-to-right
  scanning function with the same leftmost / greedy / non-overlapping
  semantics as the concrete pattern.  Scanning functions that skip over a
  match take a fuel argument which wrappers instantiate with the string
  length; every scanning step consumes at least one character, so that
  fuel is always sufficient.
* `load_time` is the value `main` hands to `check_performance`: the elapsed
  seconds rounded to two decimal places, represented exactly as a count of
  hundredths of a second.
* The float truncation `int((len(passed)/total)*100)` in `print_report` is
  modelled as `Nat` floor division.
-/

/-! ## Characters and strings -/

abbrev Str := List Char

/-- Single-quote character, kept out of string literals. -/
def sQuote : Char := Char.ofNat 39

/-- Double-quote character. -/
def dQuote : Char := '"'

def asciiLower (c : Char) : Char :=
  if 'A' ≤ c ∧ c ≤ 'Z' then Char.ofNat (c.toNat + 32) else c

/-- Python `str.lower()` (ASCII fragment). -/
def lowerStr (s : Str) : Str := s.map asciiLower

/-- Case-insensitive "starts with" against an already-lowercase pattern. -/
def startsCi (pat : Str) (s : Str) : Bool :=
  match pat, s with
  | [], _ => true
  | _ :: _, [] => false
  | p :: ps, c :: cs => p == asciiLower c && startsCi ps cs

/-- Python's `pat in s` substring test. -/
def hasSub (pat : Str) : Str → Bool
  | [] => pat.isEmpty
  | c :: cs => pat.isPrefixOf (c :: cs) || hasSub pat cs

/-- First index at which `pat` matches case-insensitively, if any. -/
def findCiIdx (pat : Str) : Str → Option Nat
  | [] => if startsCi pat [] then some 0 else none
  | c :: cs =>
    if startsCi pat (c :: cs) then some 0 else (findCiIdx pat cs).map Nat.succ

/-- Length of the maximal leading run of characters other than `>`
(the extent a greedy `[^>]*` can reach). -/
def nonGtRun (s : Str) : Nat := (s.takeWhile (fun c => c != '>')).length

/-- Python `\s` / `str.strip()` whitespace (ASCII fragment):
space, tab, newline, carriage return, vertical tab, form feed. -/
def isPyWs (c : Char) : Bool :=
  c == ' ' || c == '\t' || c == '\n' || c == '\r' ||
  c == Char.ofNat 11 || c == Char.ofNat 12

/-- Python `str.strip()`. -/
def stripWs (s : Str) : Str :=
  ((s.dropWhile isPyWs).reverse.dropWhile isPyWs).reverse

/-- Python `str.strip("/")` in `main`. -/
def stripSlash (s : Str) : Str :=
  ((s.dropWhile (fun c => c == '/')).reverse.dropWhile (fun c => c == '/')).reverse

/-- Decimal rendering of a natural number, as Python prints it. -/
def natStr (n : Nat) : Str := (Nat.repr n).data

/-- A quote character, as matched by the source's `["\x27]` classes. -/
def isQuote (c : Char) : Bool := c == dQuote || c == sQuote

/-! ## Data model

`CheckRec` is the record stored per named check: the `pass` boolean, the
statically assigned impact tier and category, and the optional detail text.
The source stores impact/category as strings drawn from fixed tables; the
data model fixes their ranges, so they are embedded as enumerations. -/

inductive Impact
  | critical
  | high
  | medium
  | low
deriving DecidableEq, Repr

inductive Category
  | security
  | seo
  | performance
  | compliance
deriving DecidableEq, Repr

structure CheckRec where
  pass : Bool
  impact : Impact
  category : Category
  detail : Option Str
deriving DecidableEq, Repr

/-- One named entry of a check-results mapping (insertion-ordered). -/
abbrev Entry := Str × CheckRec

/-- Association-list lookup on check names (Python `results[name]`). -/
def lookupKey (k : Str) : List Entry → Option CheckRec
  | [] => none
  | (k₀, v) :: rest => if k₀ = k then some v else lookupKey k rest

/-! ## Security checks (`check_security`) -/

/-- Literal `src=["\x27]http://` prefix test (the tail of the mixed-content
pattern; case-sensitive, as in the source, which passes no flag here). -/
def srcHttpAt (s : Str) : Bool :=
  (("src=".data ++ [dQuote] ++ "http://".data).isPrefixOf s) ||
  (("src=".data ++ [sQuote] ++ "http://".data).isPrefixOf s)

/-- Greedy backtracking for the `[^>]*` of `<script[^>]*src=["\x27]http://`:
the largest j below the given bound such that the `src=` literal part
matches at offset j of `rest`. -/
def tryDownSrc (rest : Str) : Nat → Option Nat
  | 0 => if srcHttpAt rest then some 0 else none
  | j+1 => if srcHttpAt (rest.drop (j+1)) then some (j+1) else tryDownSrc rest j

/-- Length of the match of `<script[^>]*src=["\x27]http://` at the head of
`s` (19 characters of literals plus the greedy `[^>]*` extent), if any. -/
def scriptHttpLen (s : Str) : Option Nat :=
  if ("<script".data).isPrefixOf s then
    (tryDownSrc (s.drop 7) (nonGtRun (s.drop 7))).map (fun j => 19 + j)
  else none

def subScriptAux : Nat → Str → Str
  | 0, _ => []
  | _+1, [] => []
  | fuel+1, c :: cs =>
    match scriptHttpLen (c :: cs) with
    | some n => subScriptAux fuel ((c :: cs).drop n)
    | none => c :: subScriptAux fuel cs

/-- Embeds `re.sub(r'<script[^>]*src=["\x27]http://', '', html)` — removes every
non-overlapping match, scanning left to right. -/
def subScript (html : Str) : Str := subScriptAux html.length html

/-- The record stored at key "No mixed content". -/
def mixedContentRec (html : Str) : CheckRec :=
  ⟨!(hasSub ("http://".data) (subScript html)), .high, .security, none⟩

/-- The record stored at key "HTTPS/SSL". -/
def httpsRec (url : Str) : CheckRec :=
  ⟨("https://".data).isPrefixOf url, .critical, .security, none⟩

/-- Embeds `check_security(url, html, headers)`; `headers` is the list of
lower-cased response-header names built by `main`. -/
def check_security (url : Str) (html : Str) (headers : List Str) : List Entry :=
  [ ("HSTS".data,
      ⟨headers.contains ("strict-transport-security".data), .high, .security, none⟩),
    ("X-Content-Type-Options".data,
      ⟨headers.contains ("x-content-type-options".data), .medium, .security, none⟩),
    ("X-Frame-Options".data,
      ⟨headers.contains ("x-frame-options".data), .medium, .security, none⟩),
    ("CSP".data,
      ⟨headers.contains ("content-security-policy".data), .high, .security, none⟩),
    ("Referrer-Policy".data,
      ⟨headers.contains ("referrer-policy".data), .low, .security, none⟩),
    ("Permissions-Policy".data,
      ⟨headers.contains ("permissions-policy".data), .low, .security, none⟩),
    ("HTTPS/SSL".data, httpsRec url),
    ("No mixed content".data, mixedContentRec html) ]

/-! ## SEO checks (`check_seo`) -/

/-- Embeds `re.sub(r'<[^>]+>', '', s)`: drop every `<...>` span (at least one
non-`>` character, then the first `>`), scanning left to right. -/
def stripTagsAux : Nat → Str → Str
  | 0, _ => []
  | _+1, [] => []
  | fuel+1, c :: cs =>
    if c = '<' ∧ nonGtRun cs ≠ 0 ∧ cs.drop (nonGtRun cs) ≠ [] then
      stripTagsAux fuel (cs.drop (nonGtRun cs + 1))
    else c :: stripTagsAux fuel cs

def stripTags (s : Str) : Str := stripTagsAux s.length s

/-- Attempt of `<title[^>]*>(.*?)</title>` (IGNORECASE, DOTALL) at the head
of `s`: the opening tag runs to its first `>`, the lazy group to the first
`</title>` after it. -/
def titleAt (s : Str) : Option Str :=
  if startsCi ("<title".data) s then
    if (s.drop 6).drop (nonGtRun (s.drop 6)) = [] then none
    else
      (findCiIdx ("</title>".data) ((s.drop 6).drop (nonGtRun (s.drop 6) + 1))).map
        (fun m => ((s.drop 6).drop (nonGtRun (s.drop 6) + 1)).take m)
  else none

/-- Embeds `re.search` for the title pattern: first position with a full match. -/
def titleSearch : Str → Option Str
  | [] => none
  | c :: cs =>
    match titleAt (c :: cs) with
    | some g => some g
    | none => titleSearch cs

/-- Embeds `re.sub(r'<[^>]+>', '', title_match.group(1)).strip()` when the title
pattern matched, `None` otherwise. -/
def extractedTitle (html : Str) : Option Str :=
  (titleSearch html).map (fun g => stripWs (stripTags g))

def missingStr : Str := "Missing".data

/-- The record `check_seo` stores at key "Title tag". -/
def titleRecord (html : Str) : CheckRec :=
  match extractedTitle html with
  | none => ⟨false, .critical, .seo, some missingStr⟩
  | some t =>
    if t = [] then ⟨false, .critical, .seo, some missingStr⟩
    else if t.length < 30 ∨ 60 < t.length then
      ⟨false, .high, .seo, some (natStr t.length ++ (" chars (target: 30-60)".data))⟩
    else ⟨true, .critical, .seo, some (t.take 50)⟩

/-- Greedy backtracking for a `[^>]+` group: try the continuation at the
largest offset first, going down to offset 1. -/
def tryDown1 (f : Nat → Option Str) : Nat → Option Str
  | 0 => none
  | j+1 =>
    match f (j+1) with
    | some a => some a
    | none => tryDown1 f j

/-- Tail `content=["\x27]([^"\x27]*)["\x27]` of the meta-description
pattern; returns the captured group. -/
def metaContent (s : Str) : Option Str :=
  if startsCi ("content=".data) s then
    match s.drop 8 with
    | q :: rest =>
      if isQuote q then
        if rest.drop ((rest.takeWhile (fun c => !isQuote c)).length) = [] then none
        else some (rest.takeWhile (fun c => !isQuote c))
      else none
    | [] => none
  else none

/-- Middle part `[^>]+content=...` after the closing quote of
`name=["\x27]description["\x27]`. -/
def metaAfterName (s : Str) : Option Str :=
  tryDown1 (fun j => metaContent (s.drop j)) (nonGtRun s)

/-- Part `name=["\x27]description["\x27][^>]+content=...`. -/
def metaNameDesc (s : Str) : Option Str :=
  if startsCi ("name=".data) s then
    match s.drop 5 with
    | q1 :: rest1 =>
      if isQuote q1 ∧ startsCi ("description".data) rest1 then
        match rest1.drop 11 with
        | q2 :: rest2 => if isQuote q2 then metaAfterName rest2 else none
        | [] => none
      else none
    | [] => none
  else none

/-- Attempt of the full meta-description pattern
`<meta[^>]+name=["\x27]description["\x27][^>]+content=["\x27]([^"\x27]*)["\x27]`
(IGNORECASE) at the head of `s`. -/
def metaAt (s : Str) : Option Str :=
  if startsCi ("<meta".data) s then
    tryDown1 (fun j => metaNameDesc ((s.drop 5).drop j)) (nonGtRun (s.drop 5))
  else none

/-- Embeds `re.search` for the meta-description pattern. -/
def metaDescSearch : Str → Option Str
  | [] => none
  | c :: cs =>
    match metaAt (c :: cs) with
    | some d => some d
    | none => metaDescSearch cs

/-- The record `check_seo` stores at key "Meta description". -/
def metaDescRec (html : Str) : CheckRec :=
  match metaDescSearch html with
  | none => ⟨false, .high, .seo, some missingStr⟩
  | some d =>
    if d = [] then ⟨false, .high, .seo, some missingStr⟩
    else if d.length < 70 ∨ 160 < d.length then
      ⟨false, .medium, .seo, some (natStr d.length ++ (" chars (target: 70-160)".data))⟩
    else ⟨true, .high, .seo, some (natStr d.length ++ (" chars ✓".data))⟩

/-- Attempt of `<h1[^>]*>(.*?)</h1>` (IGNORECASE, DOTALL) at the head of
`s`; returns the group and the total match length. -/
def h1At (s : Str) : Option (Str × Nat) :=
  if startsCi ("<h1".data) s then
    if (s.drop 3).drop (nonGtRun (s.drop 3)) = [] then none
    else
      (findCiIdx ("</h1>".data) ((s.drop 3).drop (nonGtRun (s.drop 3) + 1))).map
        (fun m => (((s.drop 3).drop (nonGtRun (s.drop 3) + 1)).take m,
                   3 + nonGtRun (s.drop 3) + 1 + m + 5))
  else none

/-- Embeds `re.findall` for the h1 pattern: all non-overlapping groups. -/
def h1BodiesAux : Nat → Str → List Str
  | 0, _ => []
  | _+1, [] => []
  | fuel+1, c :: cs =>
    match h1At (c :: cs) with
    | some (g, n) => g :: h1BodiesAux fuel ((c :: cs).drop n)
    | none => h1BodiesAux fuel cs

def h1Bodies (html : Str) : List Str := h1BodiesAux html.length html

/-- Embeds `[re.sub(r'<[^>]+>', '', h).strip() for h in h1s]`. -/
def h1Strip (html : Str) : List Str :=
  (h1Bodies html).map (fun h => stripWs (stripTags h))

/-- The record stored at key "H1 tag"; the `h1s[0]` indexing of the source
is modelled partially via `head?`. -/
def h1RecOf (h1s : List Str) : Option CheckRec :=
  if h1s.isEmpty then some ⟨false, .critical, .seo, some missingStr⟩
  else if 1 < h1s.length then
    some ⟨false, .high, .seo, some (natStr h1s.length ++ (" H1s found (should be 1)".data))⟩
  else (h1s.head?).map (fun h => ⟨true, .critical, .seo, some (h.take 50)⟩)

/-- Attempt of `rel=["\x27]canonical["\x27]` (IGNORECASE) at the head. -/
def canonAt (s : Str) : Bool :=
  startsCi ("rel=".data) s &&
  (match s.drop 4 with
   | q1 :: r1 =>
     isQuote q1 && startsCi ("canonical".data) r1 &&
     (match r1.drop 9 with
      | q2 :: _ => isQuote q2
      | [] => false)
   | [] => false)

def hasCanonical : Str → Bool
  | [] => false
  | c :: cs => canonAt (c :: cs) || hasCanonical cs

def ogDouble : Str := ("property=".data) ++ [dQuote] ++ ("og:title".data) ++ [dQuote]

def ogSingle : Str := ("property=".data) ++ [sQuote] ++ ("og:title".data) ++ [sQuote]

def canonicalRec (html : Str) : CheckRec := ⟨hasCanonical html, .high, .seo, none⟩

def schemaRec (html : Str) : CheckRec :=
  ⟨hasSub ("application/ld+json".data) html, .high, .seo, none⟩

def ogRec (html : Str) : CheckRec :=
  ⟨hasSub ogDouble (lowerStr html) || hasSub ogSingle (lowerStr html), .medium, .seo, none⟩

/-- Embeds `check_seo(html, url)`.  The only Python operation in the module that
could raise is the indexing `h1s[0]`, modelled partially via `h1RecOf`;
claim C8 proves the module total. -/
def check_seo (html : Str) (_url : Str) : Option (List Entry) :=
  (h1RecOf (h1Strip html)).map (fun h1r =>
    [ ("Title tag".data, titleRecord html),
      ("Meta description".data, metaDescRec html),
      ("H1 tag".data, h1r),
      ("Canonical tag".data, canonicalRec html),
      ("Schema markup".data, schemaRec html),
      ("Open Graph tags".data, ogRec html) ])

/-! ## Performance checks (`check_performance`)

`load_time` is the seconds value already rounded to two decimal places by
`main` (`round(..., 2)`), represented as a count of hundredths of a second,
so the two threshold comparisons `< 2.0` / `< 3.0` become `< 200` / `< 300`.
-/

/-- Rendering of the rounded load time exactly as the f-string `f"{load_time}s"`
prints the float: minimal decimal digits, so trailing zeros are dropped but
a whole number still shows one `.0` digit (`2.0`, `1.5`, `0.87`). -/
def renderCs (c : Nat) : Str :=
  if c % 100 = 0 then natStr (c / 100) ++ (".0".data)
  else if c % 10 = 0 then natStr (c / 100) ++ (".".data) ++ natStr (c % 100 / 10)
  else if c % 100 < 10 then natStr (c / 100) ++ (".0".data) ++ natStr (c % 100)
  else natStr (c / 100) ++ (".".data) ++ natStr (c % 100)

/-- The record stored at key "Load time (<2s)". -/
def loadRec2 (load_time : Nat) : CheckRec :=
  ⟨decide (load_time < 200), .high, .performance, some (renderCs load_time ++ ("s".data))⟩

/-- The record stored at key "Load time (<3s)". -/
def loadRec3 (load_time : Nat) : CheckRec :=
  ⟨decide (load_time < 300), .critical, .performance, some (renderCs load_time ++ ("s".data))⟩

def viewportDouble : Str := ("name=".data) ++ [dQuote] ++ ("viewport".data) ++ [dQuote]

def viewportSingle : Str := ("name=".data) ++ [sQuote] ++ ("viewport".data) ++ [sQuote]

/-- The record stored at key "Mobile viewport". -/
def viewportRec (html : Str) : CheckRec :=
  ⟨hasSub viewportDouble (lowerStr html) || hasSub viewportSingle (lowerStr html),
   .high, .performance, none⟩

/-- Attempt of `<img[^>]+>` (IGNORECASE) at the head of `s`; returns the
matched tag text and its length. -/
def imgAt (s : Str) : Option (Str × Nat) :=
  if startsCi ("<img".data) s then
    if nonGtRun (s.drop 4) ≠ 0 ∧ (s.drop 4).drop (nonGtRun (s.drop 4)) ≠ [] then
      some (s.take (4 + nonGtRun (s.drop 4) + 1), 4 + nonGtRun (s.drop 4) + 1)
    else none
  else none

/-- Embeds `re.findall(r'<img[^>]+>', html, re.IGNORECASE)`. -/
def imgTagsAux : Nat → Str → List Str
  | 0, _ => []
  | _+1, [] => []
  | fuel+1, c :: cs =>
    match imgAt (c :: cs) with
    | some (t, n) => t :: imgTagsAux fuel ((c :: cs).drop n)
    | none => imgTagsAux fuel cs

def imgTags (html : Str) : List Str := imgTagsAux html.length html

/-- Attempt of `alt=["\x27][^"\x27]+["\x27]` (IGNORECASE) at the head. -/
def altAt (s : Str) : Bool :=
  startsCi ("alt=".data) s &&
  (match s.drop 4 with
   | q :: rest =>
     isQuote q &&
     (rest.takeWhile (fun c => !isQuote c)).length ≠ 0 &&
     rest.drop ((rest.takeWhile (fun c => !isQuote c)).length) ≠ []
   | [] => false)

/-- Embeds `re.search` for the alt pattern inside one img tag. -/
def hasAltSearch : Str → Bool
  | [] => false
  | c :: cs => altAt (c :: cs) || hasAltSearch cs

/-- Embeds `sum(1 for img in imgs if not re.search(...))`. -/
def missingAlt (html : Str) : Nat :=
  ((imgTags html).filter (fun img => !hasAltSearch img)).length

/-- The record stored at key "Image alt text" (only stored when at least
one img tag matched). -/
def imageAltRec (html : Str) : CheckRec :=
  ⟨decide (missingAlt html = 0), .medium, .performance,
   some (if missingAlt html ≠ 0 then
           natStr (missingAlt html) ++ ("/".data) ++ natStr (imgTags html).length
             ++ (" missing alt".data)
         else ("All ".data) ++ natStr (imgTags html).length ++ (" have alt text".data))⟩

/-- Embeds `len(re.findall(r'\n\s{10,}', html))`: a newline followed by a greedy
run of at least ten whitespace characters, counted non-overlapping. -/
def bloatCountAux : Nat → Str → Nat
  | 0, _ => 0
  | _+1, [] => 0
  | fuel+1, c :: cs =>
    if c = '\n' ∧ 10 ≤ (cs.takeWhile isPyWs).length then
      1 + bloatCountAux fuel (cs.drop ((cs.takeWhile isPyWs).length))
    else bloatCountAux fuel cs

def bloatCount (html : Str) : Nat := bloatCountAux html.length html

/-- The record stored at key "HTML not bloated". -/
def bloatRec (html : Str) : CheckRec :=
  ⟨decide (bloatCount html < 50), .low, .performance, none⟩

/-- Embeds `check_performance(load_time, html)`. -/
def check_performance (load_time : Nat) (html : Str) : List Entry :=
  [ ("Load time (<2s)".data, loadRec2 load_time),
    ("Load time (<3s)".data, loadRec3 load_time),
    ("Mobile viewport".data, viewportRec html) ] ++
  (if imgTags html = [] then [] else [(("Image alt text".data), imageAltRec html)]) ++
  [ ("HTML not bloated".data, bloatRec html) ]

/-! ## Compliance checks (`check_compliance`) -/

def privacyTriggers : List Str :=
  [ "privacy policy".data, "privacy-policy".data, "/privacy".data,
    "gdpr".data, "data protection".data ]

def cookieTriggers : List Str :=
  [ "cookie".data, "consent".data, "gdpr".data, "we use cookies".data ]

def termsTriggers : List Str :=
  [ "terms of service".data, "terms and conditions".data, "/terms".data,
    "terms of use".data ]

def contactTriggers : List Str :=
  [ "contact".data, "email".data, "@".data, "mailto:".data ]

/-- Embeds `any(x in html_lower for x in triggers)`. -/
def hasAny (triggers : List Str) (s : Str) : Bool :=
  triggers.any (fun p => hasSub p s)

/-- Embeds `check_compliance(html, url)`. -/
def check_compliance (html : Str) (_url : Str) : List Entry :=
  [ ("Privacy policy".data, ⟨hasAny privacyTriggers (lowerStr html), .high, .compliance, none⟩),
    ("Cookie notice".data, ⟨hasAny cookieTriggers (lowerStr html), .medium, .compliance, none⟩),
    ("Terms of service".data, ⟨hasAny termsTriggers (lowerStr html), .medium, .compliance, none⟩),
    ("Contact info".data, ⟨hasAny contactTriggers (lowerStr html), .low, .compliance, none⟩) ]

/-! ## Infra checks (`check_infra`)

The two auxiliary fetches are network effects; they are embedded as an
explicit outcome argument per probe: either a completed response with a
final status code, or any of the exception kinds `urllib` can raise. -/

inductive FetchExc
  | httpError (code : Nat)
  | urlError
  | timeout
  | sslError
  | decodeError
deriving DecidableEq, Repr

inductive FetchOutcome
  | ok (status : Nat)
  | exc (e : FetchExc)
deriving DecidableEq, Repr

/-- One probe entry of `check_infra`: `pass` iff the fetch completed with
status 200; every exception is swallowed into the same failed record. -/
def infraRec (impact : Impact) (r : FetchOutcome) : CheckRec :=
  match r with
  | .ok s => ⟨decide (s = 200), impact, .seo, none⟩
  | .exc _ => ⟨false, impact, .seo, none⟩

/-- Embeds `check_infra(domain, base_url)` as a function of the two probe
outcomes. -/
def check_infra (robots : FetchOutcome) (sitemap : FetchOutcome) : List Entry :=
  [ ("robots.txt".data, infraRec .medium robots),
    ("sitemap.xml".data, infraRec .high sitemap) ]

/-! ## Aggregator and reporter (`print_report`) -/

/-- The table `IMPACT_ORDER`; with the impact enumeration the `.get(..., 3)` default
of the source is unreachable. -/
def IMPACT_ORDER : Impact → Nat
  | .critical => 0
  | .high => 1
  | .medium => 2
  | .low => 3

/-- The `categories` list of `print_report`. -/
def categories : List Category :=
  [.security, .seo, .performance, .compliance]

/-- Embeds `len(passed)` for the dict comprehension keyed on `v["pass"]`. -/
def passCount (checks : List Entry) : Nat :=
  (checks.filter (fun c => c.2.pass)).length

/-- Embeds `score = int((len(passed) / total) * 100)`: float truncation, i.e. the
floor of the exact percentage. -/
def score (checks : List Entry) : Nat :=
  passCount checks * 100 / checks.length

/-- Modelled from the spec's words for claim C1: the overall score as
`round(100 × passed_count / total_count)`, rounding to the nearest
integer (halves up). -/
def scoreRoundSpec (checks : List Entry) : Nat :=
  (passCount checks * 200 + checks.length) / (2 * checks.length)

def excellentMsg : Str := "🟢 Excellent — well-built site".data

def goodMsg : Str := "🟡 Good — a few things to fix".data

def needsWorkMsg : Str := "🟠 Needs work — multiple issues detected".data

def criticalMsg : Str := "🔴 Critical — significant problems found".data

/-- The verdict banner chosen from the overall score. -/
def verdict (s : Nat) : Str :=
  if 85 ≤ s then excellentMsg
  else if 65 ≤ s then goodMsg
  else if 45 ≤ s then needsWorkMsg
  else criticalMsg

/-- Embeds `failed = {k: v for k, v in all_checks.items() if not v["pass"]}`. -/
def failedChecks (checks : List Entry) : List Entry :=
  checks.filter (fun c => !c.2.pass)

/-- Embeds `passed = {k: v for k, v in all_checks.items() if v["pass"]}`. -/
def passedChecks (checks : List Entry) : List Entry :=
  checks.filter (fun c => c.2.pass)

/-- Stable insertion of one entry into a list sorted by `IMPACT_ORDER`
(an earlier entry goes before later entries of equal impact, matching
Python's stable `sorted`). -/
def insertImp (x : Entry) : List Entry → List Entry
  | [] => [x]
  | y :: ys =>
    if IMPACT_ORDER x.2.impact ≤ IMPACT_ORDER y.2.impact then x :: y :: ys
    else y :: insertImp x ys

/-- Embeds `sorted(cat_failed.items(), key=lambda x: IMPACT_ORDER.get(x[1]["impact"], 3))`. -/
def sortImp : List Entry → List Entry
  | [] => []
  | x :: xs => insertImp x (sortImp xs)

/-- The failed checks of one category, in input order. -/
def catFailed (checks : List Entry) (cat : Category) : List Entry :=
  (failedChecks checks).filter (fun c => c.2.category = cat)

/-- The `for cat in categories` loop body results, concatenated: with the
category enumeration the loop is the four fixed iterations. -/
def concatMapCats (f : Category → List Entry) : List Entry :=
  f .security ++ f .seo ++ f .performance ++ f .compliance

/-- The full ISSUES FOUND list as rendered: failed checks grouped by
category, each group sorted ascending by impact order. -/
def failedRendered (checks : List Entry) : List Entry :=
  concatMapCats (fun cat => sortImp (catFailed checks cat))

/-- The full PASSING list as rendered: passed checks grouped by category. -/
def passedRendered (checks : List Entry) : List Entry :=
  concatMapCats (fun cat => (passedChecks checks).filter (fun c => c.2.category = cat))

/-! ## `main`: domain normalisation and URL construction -/

/-- Python `s.replace(pat, "")` for a non-empty pattern: removes every
non-overlapping occurrence, scanning left to right. -/
def removeAllAux (pat : Str) : Nat → Str → Str
  | 0, _ => []
  | _+1, [] => []
  | fuel+1, c :: cs =>
    if pat.isPrefixOf (c :: cs) ∧ pat ≠ [] then
      removeAllAux pat fuel (cs.drop (pat.length - 1))
    else c :: removeAllAux pat fuel cs

def removeAll (pat : Str) (s : Str) : Str := removeAllAux pat s.length s

/-- Embeds `domain = sys.argv[1].replace("https://", "").replace("http://", "").strip("/")`. -/
def mainDomain (arg : Str) : Str :=
  stripSlash (removeAll ("http://".data) (removeAll ("https://".data) arg))

/-- Embeds `base_url = f"https://{domain}"`. -/
def base_url (arg : Str) : Str := ("https://".data) ++ mainDomain arg

/-! ## Spec-side definitions for refinement comparisons -/

/-- Modelled from the spec's words for claim C6: the load time "rendered to
two decimal places", i.e. always showing exactly two fractional digits. -/
def renderTwoDecimals (c : Nat) : Str :=
  natStr (c / 100) ++ (".".data) ++
  (if c % 100 < 10 then ("0".data) ++ natStr (c % 100) else natStr (c % 100))

/-! ## Concrete inputs used by witnesses and counterexamples -/

/-- Three checks of which two pass. -/
def exTwoOfThree : List Entry :=
  [ ("a".data, ⟨true, .high, .security, none⟩),
    ("b".data, ⟨true, .low, .seo, none⟩),
    ("c".data, ⟨false, .critical, .performance, none⟩) ]

/-- Three checks that all pass. -/
def exAllPass : List Entry :=
  [ ("a".data, ⟨true, .high, .security, none⟩),
    ("b".data, ⟨true, .low, .seo, none⟩),
    ("c".data, ⟨true, .critical, .performance, none⟩) ]

/-- A found-but-empty title element. -/
def emptyTitleHtml : Str := ("<title></title>".data)

/-- A title of exactly 30 characters. -/
def title30Html : Str := ("<title>".data) ++ List.replicate 30 'a' ++ ("</title>".data)

/-- The spec's passing mixed-content example: a script src pointing at an
HTTP URL and no other `http://` occurrence. -/
def mixedPassHtml : Str :=
  ("<script src=\"http://cdn.example.com/a.js\"></script>".data)

/-- The same body with an additional literal `http://` mention. -/
def mixedFailHtml : Str :=
  mixedPassHtml ++ (" Visit http://old.example.com".data)

/-! ## Claim C1 -/

/-- Claim C1, counterexample: with three checks of which two pass, the
code's score is the float truncation 66, while round(100 × 2/3) = 67, so
the overall score is not `round(100 × passed/total)`. -/
theorem C1_counterexample :
    score exTwoOfThree = 66 ∧ scoreRoundSpec exTwoOfThree = 67 ∧
    score exTwoOfThree ≠ scoreRoundSpec exTwoOfThree := by
  refine ⟨by decide, by decide, by decide⟩

/-- Claim C1 (amended): for every non-empty collection of check results the
overall score is the floor of 100 × passed_count / total_count (Python's
`int()` truncation of the float quotient); in particular it is 100 when
every check passes and 0 when every check fails. -/
theorem C1_score_floor (checks : List Entry) (hne : checks ≠ []) :
    score checks = passCount checks * 100 / checks.length ∧
    ((∀ c ∈ checks, c.2.pass = true) → score checks = 100) ∧
    ((∀ c ∈ checks, c.2.pass = false) → score checks = 0) := by
  have hlen : 0 < checks.length := List.length_pos.mpr hne
  refine ⟨rfl, ?_, ?_⟩
  · intro hall
    have hfull : checks.filter (fun c => c.2.pass) = checks :=
      List.filter_eq_self.mpr (fun a ha => hall a ha)
    unfold score passCount
    rw [hfull]
    exact Nat.mul_div_cancel_left 100 hlen
  · intro hnone
    have hempty : checks.filter (fun c => c.2.pass) = [] := by
      rw [List.filter_eq_nil_iff]
      intro a ha
      simp [hnone a ha]
    unfold score passCount
    rw [hempty]
    simp

/-- Witness for C1: the amended theorem evaluated at a concrete
all-passing collection of three checks. -/
theorem C1_witness : score exAllPass = 100 :=
  (C1_score_floor exAllPass (by decide)).2.1 (by decide)

/-! ## Claim C2 -/

/-- Claim C2, counterexample: in `<title></title>` a title element is
found, its stripped content length 0 is outside [30,60], yet the check is
recorded with impact critical and detail "Missing" rather than impact high
with a character count. -/
theorem C2_counterexample :
    (titleSearch emptyTitleHtml).isSome = true ∧
    extractedTitle emptyTitleHtml = some [] ∧
    (titleRecord emptyTitleHtml).impact = Impact.critical ∧
    (titleRecord emptyTitleHtml).detail = some missingStr ∧
    Impact.critical ≠ Impact.high := by
  refine ⟨by decide, by decide, by decide, by decide, by decide⟩

/-- Claim C2 (amended): whenever a title element is found with non-empty
stripped content, lengths outside [30,60] fail with impact high and a
detail giving the exact character count (so exactly 30 or 60 passes and
29 or 61 fails); when no title is found, or the found title strips to the
empty string, the check fails with impact critical and detail "Missing". -/
theorem C2_title_classification (html : Str) :
    (∀ t, extractedTitle html = some t → t ≠ [] →
      ((titleRecord html).pass = true ↔ 30 ≤ t.length ∧ t.length ≤ 60) ∧
      ((titleRecord html).pass = true → (titleRecord html).impact = Impact.critical) ∧
      (t.length < 30 ∨ 60 < t.length →
        (titleRecord html).pass = false ∧
        (titleRecord html).impact = Impact.high ∧
        (titleRecord html).detail =
          some (natStr t.length ++ (" chars (target: 30-60)".data)))) ∧
    ((extractedTitle html = none ∨ extractedTitle html = some []) →
      titleRecord html = ⟨false, .critical, .seo, some missingStr⟩) := by
  constructor
  · intro t ht hne
    have hrec : titleRecord html =
        (if t = [] then ⟨false, .critical, .seo, some missingStr⟩
         else if t.length < 30 ∨ 60 < t.length then
           ⟨false, .high, .seo, some (natStr t.length ++ (" chars (target: 30-60)".data))⟩
         else ⟨true, .critical, .seo, some (t.take 50)⟩) := by
      simp [titleRecord, ht]
    rw [hrec, if_neg hne]
    by_cases hlen : t.length < 30 ∨ 60 < t.length
    · rw [if_pos hlen]
      refine ⟨by simp; omega, by simp, fun _ => ⟨rfl, rfl, rfl⟩⟩
    · rw [if_neg hlen]
      push_neg at hlen
      refine ⟨by simp; omega, fun _ => rfl, fun h => absurd h (by omega)⟩
  · intro h
    rcases h with h | h <;> simp [titleRecord, h]

/-- Witness for C2: the amended theorem evaluated at a concrete 30-character
title, which passes. -/
theorem C2_witness :
    extractedTitle title30Html = some (List.replicate 30 'a') ∧
    (titleRecord title30Html).pass = true := by
  have h : extractedTitle title30Html = some (List.replicate 30 'a') := by decide
  refine ⟨h, ?_⟩
  exact ((C2_title_classification title30Html).1 (List.replicate 30 'a') h
    (by decide)).1.mpr (by decide)

/-! ## Claim C3 -/

/-- Claim C3: the mixed-content check passes iff, after removing the
`<script ... src="http://` spans, no literal `http://` remains; the spec's
two concrete bodies behave as claimed. -/
theorem C3_mixed_content (html : Str) :
    ((mixedContentRec html).pass = true ↔
      hasSub ("http://".data) (subScript html) = false) ∧
    (mixedContentRec mixedPassHtml).pass = true ∧
    (mixedContentRec mixedFailHtml).pass = false := by
  refine ⟨?_, by decide, by decide⟩
  simp [mixedContentRec]

/-! ## Claim C4 -/

/-- Claim C4: the verdict tiers are exactly ≥85 excellent, [65,85) good,
[45,65) needs work, <45 critical; boundaries inclusive on the lower bound,
so 84 is not excellent and 85 is. -/
theorem C4_verdict_tiers (s : Nat) :
    (verdict s = excellentMsg ↔ 85 ≤ s) ∧
    (verdict s = goodMsg ↔ 65 ≤ s ∧ s < 85) ∧
    (verdict s = needsWorkMsg ↔ 45 ≤ s ∧ s < 65) ∧
    (verdict s = criticalMsg ↔ s < 45) ∧
    verdict 84 ≠ excellentMsg ∧ verdict 85 = excellentMsg := by
  have eg : excellentMsg ≠ goodMsg := by decide
  have en : excellentMsg ≠ needsWorkMsg := by decide
  have ec : excellentMsg ≠ criticalMsg := by decide
  have gn : goodMsg ≠ needsWorkMsg := by decide
  have gc : goodMsg ≠ criticalMsg := by decide
  have nc : needsWorkMsg ≠ criticalMsg := by decide
  have h84 : verdict 84 ≠ excellentMsg := by decide
  have h85 : verdict 85 = excellentMsg := by decide
  rcases Nat.lt_or_ge s 45 with hr | hr
  · have hv : verdict s = criticalMsg := by
      unfold verdict
      rw [if_neg (by omega), if_neg (by omega), if_neg (by omega)]
    rw [hv]
    exact ⟨by simp [Ne.symm ec]; omega, by simp [Ne.symm gc]; omega,
      by simp [Ne.symm nc]; omega, by simp [hr], h84, h85⟩
  · rcases Nat.lt_or_ge s 65 with hr2 | hr2
    · have hv : verdict s = needsWorkMsg := by
        unfold verdict
        rw [if_neg (by omega), if_neg (by omega), if_pos (by omega)]
      rw [hv]
      exact ⟨by simp [Ne.symm en]; omega, by simp [Ne.symm gn]; omega,
        by simp; omega, by simp [nc]; omega, h84, h85⟩
    · rcases Nat.lt_or_ge s 85 with hr3 | hr3
      · have hv : verdict s = goodMsg := by
          unfold verdict
          rw [if_neg (by omega), if_pos (by omega)]
        rw [hv]
        exact ⟨by simp [Ne.symm eg]; omega, by simp; omega,
          by simp [gn]; omega, by simp [gc]; omega, h84, h85⟩
      · have hv : verdict s = excellentMsg := by
          unfold verdict
          rw [if_pos (by omega)]
        rw [hv]
        exact ⟨by simp; omega, by simp [eg]; omega,
          by simp [en]; omega, by simp [ec]; omega, h84, h85⟩

/-! ## Claim C5 -/

/-- The spec's concrete image example: three img tags, one missing alt. -/
def imgsHtml : Str :=
  ("<img src=\"a\" alt=\"x\"><img src=\"b\" alt=\"y\"><img src=\"c\">".data)

/-- A body without any img tag. -/
def noImgHtml : Str := ("<p>no images here</p>".data)

/-- Claim C5: the image-alt check is present iff at least one img tag
matched; when present it passes iff every img tag has a non-empty quoted
alt attribute. -/
theorem C5_image_alt (html : Str) (load_time : Nat) :
    (lookupKey ("Image alt text".data) (check_performance load_time html) =
      if imgTags html = [] then none else some (imageAltRec html)) ∧
    ((("Image alt text".data) ∈ (check_performance load_time html).map Prod.fst) ↔
      imgTags html ≠ []) ∧
    ((imageAltRec html).pass = true ↔ ∀ img ∈ imgTags html, hasAltSearch img = true) := by
  have k1 : ("Load time (<2s)".data : Str) ≠ ("Image alt text".data) := by decide
  have k2 : ("Load time (<3s)".data : Str) ≠ ("Image alt text".data) := by decide
  have k3 : ("Mobile viewport".data : Str) ≠ ("Image alt text".data) := by decide
  have k4 : ("HTML not bloated".data : Str) ≠ ("Image alt text".data) := by decide
  refine ⟨?_, ?_, ?_⟩
  · by_cases himg : imgTags html = [] <;>
      simp [check_performance, himg, lookupKey, k1, k2, k3, k4]
  · by_cases himg : imgTags html = [] <;>
      simp [check_performance, himg, Ne.symm k1, Ne.symm k2, Ne.symm k3, Ne.symm k4]
  · unfold imageAltRec missingAlt
    simp [List.length_eq_zero, List.filter_eq_nil_iff]

/-- Witness for C5: at the spec's three-image body the check is present and
fails (one of three tags has no alt); at an image-less body it is absent. -/
theorem C5_witness :
    lookupKey ("Image alt text".data) (check_performance 100 imgsHtml)
      = some (imageAltRec imgsHtml) ∧
    (imageAltRec imgsHtml).detail = some ("1/3 missing alt".data) ∧
    (imageAltRec imgsHtml).pass = false ∧
    lookupKey ("Image alt text".data) (check_performance 100 noImgHtml) = none := by
  have h1 := (C5_image_alt imgsHtml 100).1
  have h2 := (C5_image_alt noImgHtml 100).1
  have h3 := (C5_image_alt imgsHtml 100).2.2
  refine ⟨?_, by decide, ?_, ?_⟩
  · rw [h1, if_neg (by decide)]
  · have hnot : ¬ ∀ img ∈ imgTags imgsHtml, hasAltSearch img = true := by decide
    cases hp : (imageAltRec imgsHtml).pass
    · rfl
    · exact absurd (h3.mp hp) hnot
  · rw [h2, if_pos (by decide)]

/-! ## Claim C6 -/

/-- Claim C6 (amended): both load-time checks are always present, passing
iff the measured time is below 2.0 s resp. 3.0 s with impacts high resp.
critical; each detail holds the measured time (as rounded to two decimal
places by the caller) rendered minimally — trailing zeros dropped —
followed by "s". -/
theorem C6_load_time (load_time : Nat) (html : Str) :
    lookupKey ("Load time (<2s)".data) (check_performance load_time html)
      = some (loadRec2 load_time) ∧
    lookupKey ("Load time (<3s)".data) (check_performance load_time html)
      = some (loadRec3 load_time) ∧
    ((loadRec2 load_time).pass = true ↔ load_time < 200) ∧
    (loadRec2 load_time).impact = Impact.high ∧
    ((loadRec3 load_time).pass = true ↔ load_time < 300) ∧
    (loadRec3 load_time).impact = Impact.critical ∧
    (loadRec2 load_time).detail = some (renderCs load_time ++ ("s".data)) ∧
    (loadRec3 load_time).detail = some (renderCs load_time ++ ("s".data)) := by
  have k21 : ("Load time (<2s)".data : Str) = ("Load time (<2s)".data) := rfl
  have k23 : ("Load time (<2s)".data : Str) ≠ ("Load time (<3s)".data) := by decide
  refine ⟨?_, ?_, by simp [loadRec2], rfl, by simp [loadRec3], rfl, rfl, rfl⟩
  · simp [check_performance, lookupKey]
  · simp [check_performance, lookupKey, Ne.symm k23]

/-- Claim C6, counterexample: at a measured (rounded) load time of 1.5
seconds the stored detail is "1.5s", not the claimed two-decimal-places
rendering "1.50s". -/
theorem C6_counterexample :
    (loadRec2 150).detail = some ("1.5s".data) ∧
    renderTwoDecimals 150 ++ ("s".data) = ("1.50s".data) ∧
    (loadRec2 150).detail ≠ some (renderTwoDecimals 150 ++ ("s".data)) := by
  refine ⟨by decide, by decide, by decide⟩

/-! ## Claim C7 -/

/-- Claim C7: each auxiliary probe's check passes iff the fetch completed
with status 200; every exception kind collapses to the identical failed
record, and both checks are always recorded (nothing propagates). -/
theorem C7_infra (robots sitemap : FetchOutcome) :
    lookupKey ("robots.txt".data) (check_infra robots sitemap)
      = some (infraRec .medium robots) ∧
    lookupKey ("sitemap.xml".data) (check_infra robots sitemap)
      = some (infraRec .high sitemap) ∧
    (∀ (imp : Impact) (r : FetchOutcome),
      (infraRec imp r).pass = true ↔ r = FetchOutcome.ok 200) ∧
    (∀ (imp : Impact) (e₁ e₂ : FetchExc),
      infraRec imp (.exc e₁) = infraRec imp (.exc e₂)) := by
  have hk : ("robots.txt".data : Str) ≠ ("sitemap.xml".data) := by decide
  refine ⟨?_, ?_, ?_, fun imp e₁ e₂ => rfl⟩
  · simp [check_infra, lookupKey]
  · simp [check_infra, lookupKey, hk]
  · intro imp r
    cases r with
    | ok s => simp [infraRec]
    | exc e => simp [infraRec]

/-! ## Claim C8 -/

/-- The branch map `h1RecOf` is total: the `h1s[0]` indexing only happens on a singleton. -/
theorem h1RecOf_isSome (l : List Str) : (h1RecOf l).isSome = true := by
  match l with
  | [] => rfl
  | [a] => rfl
  | a :: b :: t =>
    rw [h1RecOf, if_neg (by simp), if_pos (by simp)]
    rfl

/-- Claim C8: the four check modules are total functions of their string
inputs: `check_seo` never fails on its one partial operation, and every
module returns its full result mapping. -/
theorem C8_checks_total (html url : Str) (headers : List Str) (load_time : Nat) :
    (check_seo html url).isSome = true ∧
    (check_security url html headers).length = 8 ∧
    (check_performance load_time html).length
      = (if imgTags html = [] then 4 else 5) ∧
    (check_compliance html url).length = 4 := by
  refine ⟨?_, rfl, ?_, rfl⟩
  · have h := h1RecOf_isSome (h1Strip html)
    unfold check_seo
    cases hh : h1RecOf (h1Strip html) with
    | none => rw [hh] at h; simp at h
    | some r => rfl
  · by_cases himg : imgTags html = [] <;> simp [check_performance, himg]

/-! ## Claim C9 -/

theorem insertImp_perm (x : Entry) (l : List Entry) :
    List.Perm (insertImp x l) (x :: l) := by
  induction l with
  | nil => exact List.Perm.refl _
  | cons y ys ih =>
    by_cases h : IMPACT_ORDER x.2.impact ≤ IMPACT_ORDER y.2.impact
    · rw [insertImp, if_pos h]
    · rw [insertImp, if_neg h]
      exact (ih.cons y).trans (List.Perm.swap x y ys)

theorem sortImp_perm (l : List Entry) : List.Perm (sortImp l) l := by
  induction l with
  | nil => exact List.Perm.refl _
  | cons x xs ih => exact (insertImp_perm x (sortImp xs)).trans (ih.cons x)

theorem insertImp_pairwise (x : Entry) (l : List Entry)
    (h : List.Pairwise (fun a b => IMPACT_ORDER a.2.impact ≤ IMPACT_ORDER b.2.impact) l) :
    List.Pairwise (fun a b => IMPACT_ORDER a.2.impact ≤ IMPACT_ORDER b.2.impact)
      (insertImp x l) := by
  induction l with
  | nil => simp [insertImp]
  | cons y ys ih =>
    rcases List.pairwise_cons.mp h with ⟨hy, hys⟩
    by_cases hle : IMPACT_ORDER x.2.impact ≤ IMPACT_ORDER y.2.impact
    · rw [insertImp, if_pos hle]
      refine List.pairwise_cons.mpr ⟨?_, h⟩
      intro z hz
      rcases List.mem_cons.mp hz with rfl | hz'
      · exact hle
      · exact le_trans hle (hy z hz')
    · rw [insertImp, if_neg hle]
      refine List.pairwise_cons.mpr ⟨?_, ih hys⟩
      intro z hz
      have hz' := (insertImp_perm x ys).mem_iff.mp hz
      rcases List.mem_cons.mp hz' with rfl | hz''
      · omega
      · exact hy z hz''

theorem sortImp_pairwise (l : List Entry) :
    List.Pairwise (fun a b => IMPACT_ORDER a.2.impact ≤ IMPACT_ORDER b.2.impact)
      (sortImp l) := by
  induction l with
  | nil => exact List.Pairwise.nil
  | cons x xs ih => exact insertImp_pairwise x (sortImp xs) ih

theorem perm_cons_middle (x : Entry) (A B l : List Entry)
    (h : List.Perm (A ++ B) l) : List.Perm (A ++ x :: B) (x :: l) :=
  List.Perm.trans List.perm_middle (List.Perm.cons x h)

/-- Splitting a list into its four category filters and concatenating the
pieces is a permutation of the list: every entry's category is exactly one
of the four. -/
theorem concatMapCats_filter_perm (l : List Entry) :
    List.Perm (concatMapCats (fun cat => l.filter (fun c => c.2.category = cat))) l := by
  induction l with
  | nil => simp [concatMapCats]
  | cons x xs ih =>
    rcases hx : x.2.category with _ | _ | _ | _
    · simp only [concatMapCats, List.filter_cons, hx] at ih ⊢
      simp only [List.append_assoc, List.cons_append] at ih ⊢
      simp
      exact (by simpa [List.append_assoc] using ih)
    · simp only [concatMapCats, List.filter_cons, hx] at ih ⊢
      simp only [List.append_assoc, List.cons_append] at ih ⊢
      simp
      exact perm_cons_middle x _ _ _ (by simpa [List.append_assoc] using ih)
    · simp only [concatMapCats, List.filter_cons, hx] at ih ⊢
      simp only [List.append_assoc, List.cons_append] at ih ⊢
      simp
      rw [← List.append_assoc]
      exact perm_cons_middle x _ _ _ (by simpa [List.append_assoc] using ih)
    · simp only [concatMapCats, List.filter_cons, hx] at ih ⊢
      simp only [List.append_assoc, List.cons_append] at ih ⊢
      simp
      rw [← List.append_assoc, ← List.append_assoc]
      exact perm_cons_middle x _ _ _ (by simpa [List.append_assoc] using ih)

theorem failedRendered_perm (checks : List Entry) :
    List.Perm (failedRendered checks) (failedChecks checks) := by
  refine List.Perm.trans ?_ (concatMapCats_filter_perm (failedChecks checks))
  unfold failedRendered concatMapCats catFailed
  exact (((sortImp_perm _).append (sortImp_perm _)).append
    (sortImp_perm _)).append (sortImp_perm _)

theorem passedRendered_perm (checks : List Entry) :
    List.Perm (passedRendered checks) (passedChecks checks) :=
  concatMapCats_filter_perm (passedChecks checks)

theorem failed_passed_perm (checks : List Entry) :
    List.Perm (failedChecks checks ++ passedChecks checks) checks := by
  have h := List.filter_append_perm (fun c : Entry => !c.2.pass) checks
  simpa [failedChecks, passedChecks, Bool.not_not] using h

/-- Claim C9: the two rendered lists partition the checks exactly on the
`pass` boolean (each check lands in exactly one of them), and each
category's failed group is sorted ascending by impact order, critical
first. -/
theorem C9_report_partition (checks : List Entry) :
    List.Perm (failedRendered checks ++ passedRendered checks) checks ∧
    (∀ c : Entry, c ∈ failedRendered checks ↔ c ∈ checks ∧ c.2.pass = false) ∧
    (∀ c : Entry, c ∈ passedRendered checks ↔ c ∈ checks ∧ c.2.pass = true) ∧
    (∀ cat : Category, List.Pairwise
      (fun a b => IMPACT_ORDER a.2.impact ≤ IMPACT_ORDER b.2.impact)
      (sortImp (catFailed checks cat))) := by
  have hf := failedRendered_perm checks
  have hp := passedRendered_perm checks
  refine ⟨(hf.append hp).trans (failed_passed_perm checks), ?_, ?_,
    fun cat => sortImp_pairwise _⟩
  · intro c
    rw [hf.mem_iff]
    simp [failedChecks, List.mem_filter]
  · intro c
    rw [hp.mem_iff]
    simp [passedChecks, List.mem_filter]

/-! ## Claim C10 -/

theorem isPrefixOf_append_self (l t : Str) : l.isPrefixOf (l ++ t) = true := by
  induction l with
  | nil => simp [List.isPrefixOf]
  | cons c cs ih => simp [List.isPrefixOf, ih]

/-- Claim C10: `main` builds the scanned URL as "https://" plus the
stripped domain, so the URL always starts with "https://" and the
HTTPS/SSL check (impact critical) always passes. -/
theorem C10_https_always_passes (arg html : Str) (headers : List Str) :
    ("https://".data).isPrefixOf (base_url arg) = true ∧
    lookupKey ("HTTPS/SSL".data) (check_security (base_url arg) html headers)
      = some (httpsRec (base_url arg)) ∧
    (httpsRec (base_url arg)).pass = true := by
  have h : ("https://".data).isPrefixOf (base_url arg) = true :=
    isPrefixOf_append_self _ _
  exact ⟨h, rfl, h⟩
